import Mathlib

/-!
Verification development for the retry / long-running-operation (LRO) core of
the azure-sdk-for-python excerpt.

The excerpt contains the test suite of the shared HTTP retry policy
(sdk/core/corehttp/tests/async_tests/test_retry_policy_async.py) and several
generated operation modules, most relevantly
sdk/deviceupdate/.../aio/operations/_instances_operations.py.

The retry-policy implementation itself (corehttp.runtime.policies.AsyncRetryPolicy)
and the polling engine (AsyncARMPolling, AsyncLROPoller) are not part of the
excerpt; where a definition embeds one of them it is modelled from the
specification, anchored on the concrete contracts asserted by the in-repo tests.
Definitions embedding code that is present (the generated operation modules)
follow that code directly.

Machine rationals (ℚ) stand in for Python floats: every duration involved is a
small decimal fraction that floats represent exactly, so no rounding is lost.
-/

namespace AzurePipeline

/-- Modelled from the spec: the retry mode enumeration (`Fixed` | `Exponential`)
of `corehttp.runtime.policies.RetryMode` (absent from the excerpt). -/
inductive RetryMode
  | Fixed
  | Exponential
deriving DecidableEq, Repr

/-- Modelled from the spec: the default retry mode of a policy constructed with
no `retry_mode` argument. The in-repo test `test_retry_types` asserts that the
default policy computes the same backoff as `RetryMode.Exponential`. -/
def DEFAULT_RETRY_MODE : RetryMode := RetryMode.Exponential

/-- Modelled from the spec: the `settings` dictionary passed to
`get_backoff_time` — the attempt `history` (only its length matters), the
`backoff` base factor, and the `max_backoff` cap. -/
structure BackoffSettings where
  history : List String
  backoff : ℚ
  max_backoff : ℚ
deriving DecidableEq, Repr

/-- Modelled from the spec: `AsyncRetryPolicy.get_backoff_time` (absent from
the excerpt; only its tests are present). Exponential mode doubles per recorded
attempt, capped at `max_backoff`; Fixed mode returns the base. The exponent is
`history length - 1` and a history of at most one entry yields no backoff: the
spec designates the in-repo test fixed point (history of 3 entries, backoff 1,
cap 10 gives 4) as the authoritative contract, and the in-repo test comment for
default settings (backoff factor 0.8) records the doubling sequence 1.6s, 3.2s
with no initial sleep. -/
def get_backoff_time (mode : RetryMode) (s : BackoffSettings) : ℚ :=
  let n := s.history.length
  if n ≤ 1 then 0
  else
    match mode with
    | RetryMode.Fixed => s.backoff
    | RetryMode.Exponential => min s.max_backoff (s.backoff * 2 ^ (n - 1))

/-- Modelled from the spec: membership in the policy's default retryable
status-code set `_RETRY_CODES` — 408, 429 and the 5xx class, with 501
explicitly excluded. -/
def RETRY_CODES (status : Nat) : Bool :=
  status == 408 || status == 429 ||
    (decide (500 ≤ status) && decide (status ≤ 599) && status != 501)

/-- Modelled from the spec: the two transport-level error kinds —
`request` for `ServiceRequestError` (failure before any byte was sent) and
`response` for `ServiceResponseError` (failure after sending). -/
inductive ErrKind
  | request
  | response
deriving DecidableEq, Repr

/-- Modelled from the spec: the outcome of one transport send — a response
(status code plus an optional `Retry-After` header value in seconds) or a
transport-level error. -/
inductive SendResult
  | success (status : Nat) (retryAfter : Option ℚ)
  | failure (k : ErrKind)
deriving DecidableEq, Repr

/-- Modelled from the spec: the outcome of a whole retry-policy run — the final
response's status, the last raw transport error after the retry budget is
exhausted, or a deadline failure (`timeoutErr ErrKind.request` stands for
`ServiceRequestTimeoutError`, `timeoutErr ErrKind.response` for
`ServiceResponseTimeoutError`). -/
inductive RunOutcome
  | ok (status : Nat)
  | raw (k : ErrKind)
  | timeoutErr (k : ErrKind)
deriving DecidableEq, Repr

/-- Modelled from the spec: the retry-policy configuration — total retry count,
backoff base factor, backoff cap, optional overall deadline, retry mode. -/
structure RetryConfig where
  retry_total : Nat
  backoff : ℚ
  max_backoff : ℚ
  timeout : Option ℚ
  retry_mode : RetryMode
deriving DecidableEq, Repr

/-- Modelled from the spec: the defaults of a policy constructed with no
arguments — 3 retries and backoff factor 0.8, evidenced by the in-repo test
comment that a default policy sleeps 1.6s then 3.2s before exhausting its
retries; no deadline unless configured. -/
def defaultRetryConfig : RetryConfig :=
  ⟨3, 4 / 5, 120, none, RetryMode.Exponential⟩

/-- Modelled from the spec: the per-send timeout overrides handed to the
transport (`none` means the keyword was not passed at all and the transport's
own configuration applies). -/
structure SendRecord where
  connection_timeout : Option ℚ
  read_timeout : Option ℚ
deriving DecidableEq, Repr

/-- Modelled from the spec: whether a response must be retried — a status below
400 is never retried (a success such as 201 returns immediately even when a
`Retry-After` header is present), a status of at least 400 carrying
`Retry-After` is always retried, and otherwise the configured retryable
status-code set decides. -/
def is_retry (status : Nat) (retryAfter : Option ℚ) : Bool :=
  if status < 400 then false
  else if retryAfter.isSome then true
  else RETRY_CODES status

/-- Modelled from the spec: the sleep chosen before retrying a retryable
response — a positive `Retry-After` value is preferred over the computed
backoff. -/
def response_sleep_time (cfg : RetryConfig) (hist : List String)
    (retryAfter : Option ℚ) : ℚ :=
  match retryAfter with
  | some q =>
      if 0 < q then q
      else get_backoff_time cfg.retry_mode ⟨hist, cfg.backoff, cfg.max_backoff⟩
  | none => get_backoff_time cfg.retry_mode ⟨hist, cfg.backoff, cfg.max_backoff⟩

/-- Modelled from the spec: the deadline test performed at the top of each
attempt — the run fails with a timeout error once the elapsed time has reached
the configured deadline and at least one attempt has been recorded. -/
def deadlineExceeded (timeout : Option ℚ) (elapsed : ℚ) (hist : List String) : Bool :=
  match timeout with
  | some t => decide (t ≤ elapsed) && !hist.isEmpty
  | none => false

/-- Modelled from the spec: the timeout override passed to the transport for
one send — absent when no deadline is configured, otherwise the transport's own
default capped by the remaining deadline. -/
def connTimeoutFor (timeout : Option ℚ) (transportDefault : ℚ) (elapsed : ℚ) :
    Option ℚ :=
  timeout.map (fun t => min transportDefault (t - elapsed))

/-- Modelled from the spec: the retry loop of `AsyncRetryPolicy.send` (absent
from the excerpt; only its tests are present). One recursive step per attempt:
check the deadline, send (recording the timeout overrides), and either return,
or append to the history, sleep the computed backoff (a sleep of zero is not
issued to the transport) and recurse with one fewer retry. The transport is an
attempt-indexed oracle; sends are instantaneous and sleeps advance the clock by
their duration. Returns the outcome, the per-send records, and the durations of
the transport sleeps that were issued. -/
def runAux (cfg : RetryConfig) (transport : Nat → SendResult)
    (connDefault readDefault : ℚ) :
    Nat → Nat → ℚ → List String → ErrKind →
      RunOutcome × List SendRecord × List ℚ
  | 0, attempt, elapsed, hist, lastErr =>
    if deadlineExceeded cfg.timeout elapsed hist then
      (RunOutcome.timeoutErr lastErr, [], [])
    else
      let sr : SendRecord :=
        ⟨connTimeoutFor cfg.timeout connDefault elapsed,
          connTimeoutFor cfg.timeout readDefault elapsed⟩
      match transport attempt with
      | SendResult.success st _ => (RunOutcome.ok st, [sr], [])
      | SendResult.failure k => (RunOutcome.raw k, [sr], [])
  | r + 1, attempt, elapsed, hist, lastErr =>
    if deadlineExceeded cfg.timeout elapsed hist then
      (RunOutcome.timeoutErr lastErr, [], [])
    else
      let sr : SendRecord :=
        ⟨connTimeoutFor cfg.timeout connDefault elapsed,
          connTimeoutFor cfg.timeout readDefault elapsed⟩
      match transport attempt with
      | SendResult.success st ra =>
          if is_retry st ra then
            let hist2 := hist ++ ["retried"]
            let q := response_sleep_time cfg hist2 ra
            let t := runAux cfg transport connDefault readDefault r
              (attempt + 1) (elapsed + q) hist2 lastErr
            (t.1, sr :: t.2.1, if 0 < q then q :: t.2.2 else t.2.2)
          else (RunOutcome.ok st, [sr], [])
      | SendResult.failure k =>
          let hist2 := hist ++ ["retried"]
          let q := get_backoff_time cfg.retry_mode
            ⟨hist2, cfg.backoff, cfg.max_backoff⟩
          let t := runAux cfg transport connDefault readDefault r
            (attempt + 1) (elapsed + q) hist2 k
          (t.1, sr :: t.2.1, if 0 < q then q :: t.2.2 else t.2.2)

/-- Modelled from the spec: the observable result of one retry-policy run. -/
structure RunResult where
  outcome : RunOutcome
  sends : List SendRecord
  sleeps : List ℚ
deriving DecidableEq, Repr

/-- Modelled from the spec: a whole retry-policy run starting with the full
retry budget, a fresh history and a zero clock. -/
def runRetry (cfg : RetryConfig) (connDefault readDefault : ℚ)
    (transport : Nat → SendResult) : RunResult :=
  let t := runAux cfg transport connDefault readDefault cfg.retry_total 0 0 []
    ErrKind.response
  ⟨t.1, t.2.1, t.2.2⟩

/-- Modelled from the spec: whether a send record carries a connection timeout
override that does not exceed the given limit. -/
def connection_timeout_within (limit : ℚ) (s : SendRecord) : Bool :=
  match s.connection_timeout with
  | some q => decide (q ≤ limit)
  | none => false

/-- Modelled from the spec: a policy configured with `retry_total = 1` and
everything else at its defaults. -/
def retryTotalOneConfig : RetryConfig :=
  ⟨1, 4 / 5, 120, none, RetryMode.Exponential⟩

/-- Modelled from the spec: a policy configured with `timeout = 1` and
everything else at its defaults. -/
def timeoutOneConfig : RetryConfig :=
  ⟨3, 4 / 5, 120, some 1, RetryMode.Exponential⟩

/-- Modelled from the spec: the body-rewind discipline of the retry loop
(absent from the excerpt; only its tests are present). The request body's
seekable streams — the body itself and every file-like multipart part — are a
list of read positions. The policy records the original offsets before the
first send; a send may move the positions arbitrarily and report success or
failure; before every retried attempt the policy restores each stream to its
recorded offset. The returned trace lists the positions observed at the start
of each attempt. -/
def streamTrace (send : Nat → List Nat → List Nat × Bool) (orig : List Nat) :
    Nat → Nat → List Nat → List (List Nat)
  | 0, _, pos => [pos]
  | r + 1, attempt, pos =>
      if (send attempt pos).2 then [pos]
      else pos :: streamTrace send orig r (attempt + 1) orig

/-- Modelled from the spec: the operation status reported for a long-running
operation — `InProgress` plus the three terminal states. -/
inductive OpStatus
  | InProgress
  | Succeeded
  | Failed
  | Canceled
deriving DecidableEq, Repr

/-- Modelled from the spec: whether an operation status is terminal. -/
def isTerminal : OpStatus → Bool
  | OpStatus.InProgress => false
  | _ => true

/-- Final-state-via strategy selecting the tracking mechanism, as configured by
the generated begin_create (azure-async-operation) and begin_delete (location)
operations. -/
inductive FinalStateVia
  | azureAsyncOperation
  | location
deriving DecidableEq, Repr

/-- Modelled from the spec: the initial response of a long-running call —
status code plus the two tracking headers. -/
structure InitialResponse where
  status : Nat
  azureAsyncOperationHeader : Option String
  locationHeader : Option String
deriving DecidableEq, Repr

/-- Modelled from the spec: one polled response — its status code and the
operation-status field of its payload. -/
structure PollResponse where
  code : Nat
  opStatus : OpStatus
deriving DecidableEq, Repr

/-- Modelled from the spec: the tracking URL selected by the final-state-via
strategy — the Azure-AsyncOperation header's URL or the Location header's
URL. -/
def trackingUrl (via : FinalStateVia) (init : InitialResponse) : Option String :=
  match via with
  | FinalStateVia.azureAsyncOperation => init.azureAsyncOperationHeader
  | FinalStateVia.location => init.locationHeader

/-- Modelled from the spec: the polling loop of the ARM polling method (absent
from the excerpt). The environment is the finite sequence of responses the
tracking URL would give to successive GETs. Under azure-async-operation the
loop stops at the first polled payload whose operation status is terminal and
returns that status; under location it keeps polling while the code is 202 and
then returns Succeeded exactly for a final 200 or 204, Failed otherwise. The
loop also returns the list of URLs it polled. Reaching the end of the
environment without a terminal observation leaves the poller unfinished
(`none`). -/
def pollSteps (via : FinalStateVia) (url : String) :
    List PollResponse → Option OpStatus × List String
  | [] => (none, [])
  | r :: rest =>
    match via with
    | FinalStateVia.azureAsyncOperation =>
        if isTerminal r.opStatus then (some r.opStatus, [url])
        else
          ((pollSteps via url rest).1, url :: (pollSteps via url rest).2)
    | FinalStateVia.location =>
        if r.code = 202 then
          ((pollSteps via url rest).1, url :: (pollSteps via url rest).2)
        else
          (some (if r.code = 200 ∨ r.code = 204 then OpStatus.Succeeded
            else OpStatus.Failed), [url])

/-- Modelled from the spec: the code of the first polled response that is not a
202, if any — the GET that ends location-based polling. -/
def firstNon202 : List PollResponse → Option Nat
  | [] => none
  | r :: rest => if r.code = 202 then firstNon202 rest else some r.code

/-- Modelled from the spec: starting a poller on an initial response. A 200 is
already complete and needs no polling; a 201 or 202 starts polling the URL
selected by the strategy; anything else does not start a poller. -/
def lroRun (via : FinalStateVia) (init : InitialResponse)
    (polls : List PollResponse) : Option (Option OpStatus × List String) :=
  if init.status = 200 then some (some OpStatus.Succeeded, [])
  else if init.status = 201 ∨ init.status = 202 then
    (trackingUrl via init).map (fun u => pollSteps via u polls)
  else none

/-- Where the poller returned by a begin_* operation takes its state from —
resumed from a continuation token, or built on the initial response of the
initiating request. -/
inductive PollerSource
  | fromContinuationToken (token : String)
  | fromInitialResponse
deriving DecidableEq, Repr

/-- Control flow of the generated begin_create / begin_delete operations
(sdk/deviceupdate/.../aio/operations/_instances_operations.py): the
continuation_token keyword is popped; only when it is absent is the initial
HTTP request issued (`_create_initial` / `_delete_initial`); when it is present
the poller is built by AsyncLROPoller.from_continuation_token. Returns the
number of initiating requests issued and the poller's source. -/
def begin_lro_flow (continuation_token : Option String) : Nat × PollerSource :=
  match continuation_token with
  | none => (1, PollerSource.fromInitialResponse)
  | some tok => (0, PollerSource.fromContinuationToken tok)

/-- Server response as observed by the generated initial calls — status code
and body text. -/
structure HttpResponseData where
  status : Nat
  body : String
deriving DecidableEq, Repr

/-- Errors raised by the generated initial calls. The generic `httpResponse`
carries the best-effort-deserialized server error body (none when the body was
malformed) together with the raw response; the four specific kinds carry the
raw response. -/
inductive RaisedError
  | clientAuthentication (raw : HttpResponseData)
  | resourceNotFound (raw : HttpResponseData)
  | resourceExists (raw : HttpResponseData)
  | resourceNotModified (raw : HttpResponseData)
  | httpResponse (errorModel : Option String) (raw : HttpResponseData)
deriving DecidableEq, Repr

/-- Embedded from the generated operations
(sdk/deviceupdate/.../aio/operations/_instances_operations.py): the literal
error_map dictionary built at the top of every operation, associating a status
code with the error type to raise. -/
def default_error_map : List (Nat × (HttpResponseData → RaisedError)) :=
  [(401, RaisedError.clientAuthentication), (404, RaisedError.resourceNotFound),
    (409, RaisedError.resourceExists), (304, RaisedError.resourceNotModified)]

/-- Modelled from the spec: `azure.core.exceptions.map_error` (absent from the
excerpt) raises the mapped error type when the status code has an entry in the
error map, and otherwise returns so that the generic raise that follows it
runs. -/
def map_error (status : Nat) (resp : HttpResponseData) : Option RaisedError :=
  (default_error_map.lookup status).map (fun f => f resp)

/-- Modelled from the spec: `failsafe_deserialize` parses the server error body
best-effort; a malformed body yields no model instead of an error. The parser
is abstract: any partial parsing function. -/
def failsafe_deserialize (parse : String → Option String) (body : String) :
    Option String :=
  parse body

/-- Embedded from the generated initial calls: the status check
`if response.status_code not in [...]` followed by `map_error` and the raise of
a generic `HttpResponseError` carrying the failsafe-deserialized error body.
Returns `none` when the status is a success for this operation and the raised
error otherwise. -/
def initial_call_error (successCodes : List Nat)
    (parse : String → Option String) (resp : HttpResponseData) :
    Option RaisedError :=
  if resp.status ∈ successCodes then none
  else
    match map_error resp.status resp with
    | some e => some e
    | none =>
        some (RaisedError.httpResponse (failsafe_deserialize parse resp.body) resp)

/-- Embedded from `_create_initial`: its success set is exactly [201]. -/
def create_initial_error (parse : String → Option String)
    (resp : HttpResponseData) : Option RaisedError :=
  initial_call_error [201] parse resp

/-- Embedded from `_delete_initial`: its success set is exactly
[200, 202, 204]. -/
def delete_initial_error (parse : String → Option String)
    (resp : HttpResponseData) : Option RaisedError :=
  initial_call_error [200, 202, 204] parse resp

/-- Specification-side error mapping, following the claim's words:
ClientAuthenticationError for 401, ResourceNotFoundError for 404,
ResourceExistsError for 409, ResourceNotModifiedError for 304, and otherwise a
generic HttpResponseError carrying the best-effort-deserialized body and the
raw response. -/
def spec_error_for (parse : String → Option String) (resp : HttpResponseData) :
    RaisedError :=
  if resp.status = 401 then RaisedError.clientAuthentication resp
  else if resp.status = 404 then RaisedError.resourceNotFound resp
  else if resp.status = 409 then RaisedError.resourceExists resp
  else if resp.status = 304 then RaisedError.resourceNotModified resp
  else RaisedError.httpResponse (parse resp.body) resp

/-- Embedded from the generated operations (every operation of
sdk/deviceupdate/.../_instances_operations.py and identically in the other
generated modules of the excerpt):
api_version = kwargs.pop("api_version", _params.pop("api-version", config.api_version)).
Python evaluates the inner pop eagerly, so the "api-version" entry always
leaves the caller's query-parameter map; the resolved value prefers the keyword
argument, then the popped map entry, then the configured default. The
query-parameter map is a dictionary, so each key occurs at most once; the model
removes every occurrence. Returns the resolved version and the remaining
map. -/
def resolve_api_version (api_version_kwarg : Option String)
    (params : List (String × String)) (config_api_version : String) :
    String × List (String × String) :=
  (api_version_kwarg.getD ((params.lookup "api-version").getD config_api_version),
    params.filter (fun kv => kv.1 != "api-version"))

end AzurePipeline

namespace AzurePipeline

/-- C2: get_backoff_time on a settings record whose history has exactly 3
entries, with backoff base 1 and max backoff 10, returns 4 under the default
retry mode and under RetryMode.Exponential, and returns 1 under
RetryMode.Fixed. -/
theorem get_backoff_time_concrete :
    get_backoff_time DEFAULT_RETRY_MODE ⟨["1", "2", "3"], 1, 10⟩ = 4 ∧
    get_backoff_time RetryMode.Exponential ⟨["1", "2", "3"], 1, 10⟩ = 4 ∧
    get_backoff_time RetryMode.Fixed ⟨["1", "2", "3"], 1, 10⟩ = 1 := by
  norm_num [get_backoff_time, DEFAULT_RETRY_MODE, min_def]

/-- C1 counterexample: at the settings record with history ["1", "2", "3"],
base 1 and cap 10, Exponential mode does not return
min(cap, base * 2 ^ len(history)) = min 10 8 = 8; it returns 4. -/
theorem get_backoff_time_formula_counterexample :
    get_backoff_time RetryMode.Exponential ⟨["1", "2", "3"], 1, 10⟩ ≠
      min (10 : ℚ) (1 * 2 ^ (3 : ℕ)) := by
  norm_num [get_backoff_time, min_def]

/-- C1 (amended): for every retry settings record whose history has at least
two entries, the backoff computation returns
min(cap, base * 2 ^ (len(history) - 1)) when the retry mode is Exponential and
returns base when the retry mode is Fixed. -/
theorem get_backoff_time_formula (s : BackoffSettings) (h : 2 ≤ s.history.length) :
    get_backoff_time RetryMode.Exponential s
        = min s.max_backoff (s.backoff * 2 ^ (s.history.length - 1)) ∧
    get_backoff_time RetryMode.Fixed s = s.backoff := by
  have hn : ¬ s.history.length ≤ 1 := by omega
  constructor <;> simp [get_backoff_time, hn]

/-- C1 witness: the amended formula evaluated at the concrete settings record
with history of three entries, base 1 and cap 10. -/
theorem get_backoff_time_formula_witness :
    get_backoff_time RetryMode.Exponential ⟨["1", "2", "3"], 1, 10⟩
        = min (10 : ℚ) (1 * 2 ^ (3 - 1 : ℕ)) ∧
    get_backoff_time RetryMode.Fixed ⟨["1", "2", "3"], 1, 10⟩ = 1 :=
  get_backoff_time_formula ⟨["1", "2", "3"], 1, 10⟩ (by decide)

/-- C3: the default retryable status-code set contains 408 and 429 and not 501;
with retry_total = 1 a transport that always answers 429 receives exactly two
sends, while a transport that always answers 201 with a Retry-After header
receives exactly one send. -/
theorem retry_attempt_counts (t429 t201 : Nat → SendResult)
    (h429 : ∀ n, t429 n = SendResult.success 429 none)
    (h201 : ∀ n, t201 n = SendResult.success 201 (some 1)) :
    RETRY_CODES 408 = true ∧ RETRY_CODES 429 = true ∧ RETRY_CODES 501 = false ∧
    (runRetry retryTotalOneConfig 2 2 t429).sends.length = 2 ∧
    (runRetry retryTotalOneConfig 2 2 t201).sends.length = 1 := by
  have e1 : t429 = fun _ => SendResult.success 429 none := funext h429
  have e2 : t201 = fun _ => SendResult.success 201 (some 1) := funext h201
  subst e1
  subst e2
  refine ⟨by decide, by decide, by decide, ?_, ?_⟩ <;>
    norm_num [runRetry, runAux, retryTotalOneConfig, deadlineExceeded,
      connTimeoutFor, is_retry, RETRY_CODES, response_sleep_time,
      get_backoff_time, min_def]

/-- C3 witness: the attempt counts evaluated at the two concrete transports. -/
theorem retry_attempt_counts_witness :
    RETRY_CODES 408 = true ∧ RETRY_CODES 429 = true ∧ RETRY_CODES 501 = false ∧
    (runRetry retryTotalOneConfig 2 2
        (fun _ => SendResult.success 429 none)).sends.length = 2 ∧
    (runRetry retryTotalOneConfig 2 2
        (fun _ => SendResult.success 201 (some 1))).sends.length = 1 :=
  retry_attempt_counts (fun _ => SendResult.success 429 none)
    (fun _ => SendResult.success 201 (some 1)) (fun _ => rfl) (fun _ => rfl)

/-- C5: with timeout = 1 and a transport whose every send fails with kind k
(request or response), the run ends in the timeout error of the same kind, the
transport's sleep is issued exactly once, and every send carries a
connection_timeout override of at most 1. -/
theorem retry_timeout_run (k : ErrKind) (t : Nat → SendResult)
    (h : ∀ n, t n = SendResult.failure k) :
    (runRetry timeoutOneConfig 2 2 t).outcome = RunOutcome.timeoutErr k ∧
    (runRetry timeoutOneConfig 2 2 t).sleeps.length = 1 ∧
    (runRetry timeoutOneConfig 2 2 t).sends.all (connection_timeout_within 1)
      = true := by
  have e : t = fun _ => SendResult.failure k := funext h
  subst e
  norm_num [runRetry, runAux, timeoutOneConfig, deadlineExceeded, connTimeoutFor,
    is_retry, response_sleep_time, get_backoff_time, connection_timeout_within,
    min_def]

/-- C5 witness: the timeout run evaluated at the concrete transport that always
fails with a request-level error. -/
theorem retry_timeout_run_witness :
    (runRetry timeoutOneConfig 2 2
        (fun _ => SendResult.failure ErrKind.request)).outcome
      = RunOutcome.timeoutErr ErrKind.request ∧
    (runRetry timeoutOneConfig 2 2
        (fun _ => SendResult.failure ErrKind.request)).sleeps.length = 1 ∧
    (runRetry timeoutOneConfig 2 2
        (fun _ => SendResult.failure ErrKind.request)).sends.all
        (connection_timeout_within 1) = true :=
  retry_timeout_run ErrKind.request (fun _ => SendResult.failure ErrKind.request)
    (fun _ => rfl)

/-- C6: with no timeout configured and a transport whose first send succeeds
with 200, exactly one send occurs and it carries neither a connection_timeout
nor a read_timeout override, and the transport's sleep is never issued. -/
theorem timeout_defaults_run (t : Nat → SendResult)
    (h : ∀ n, t n = SendResult.success 200 none) :
    (runRetry defaultRetryConfig 2 2 t).sends = [⟨none, none⟩] ∧
    (runRetry defaultRetryConfig 2 2 t).sleeps = [] ∧
    (runRetry defaultRetryConfig 2 2 t).outcome = RunOutcome.ok 200 := by
  have e : t = fun _ => SendResult.success 200 none := funext h
  subst e
  norm_num [runRetry, runAux, defaultRetryConfig, deadlineExceeded,
    connTimeoutFor, is_retry, RETRY_CODES]

/-- C6 witness: the default-timeout run evaluated at the concrete transport
that always succeeds with 200. -/
theorem timeout_defaults_run_witness :
    (runRetry defaultRetryConfig 2 2
        (fun _ => SendResult.success 200 none)).sends = [⟨none, none⟩] ∧
    (runRetry defaultRetryConfig 2 2
        (fun _ => SendResult.success 200 none)).sleeps = [] ∧
    (runRetry defaultRetryConfig 2 2
        (fun _ => SendResult.success 200 none)).outcome = RunOutcome.ok 200 :=
  timeout_defaults_run (fun _ => SendResult.success 200 none) (fun _ => rfl)

/-- C4: for every behaviour of the transport, every attempt of the retry loop
observes every seekable stream of the request — the body and each file-like
multipart part — at its recorded original offset; in particular an attempt
retried after a send advanced a stream and failed sees it restored. -/
theorem stream_positions_restored (send : Nat → List Nat → List Nat × Bool)
    (orig : List Nat) (remaining attempt : Nat) :
    ∀ ps ∈ streamTrace send orig remaining attempt orig, ps = orig := by
  induction remaining generalizing attempt with
  | zero => simp [streamTrace]
  | succ r ih =>
      intro ps hps
      by_cases hs : (send attempt orig).2
      · simp [streamTrace, hs] at hps
        simp [hps]
      · simp [streamTrace, hs] at hps
        rcases hps with h1 | h2
        · simp [h1]
        · exact ih (attempt + 1) ps h2

/-- C4 witness: the canonical run — original offset 0, first send advances the
stream to offset 15 and fails — observes the stream at offset 0 on the retried
attempt as well. -/
theorem stream_positions_restored_witness :
    ([0] : List Nat) ∈ streamTrace (fun _ _ => ([15], false)) [0] 1 0 [0] ∧
    ([0] : List Nat) = [0] :=
  ⟨by decide,
    stream_positions_restored (fun _ _ => ([15], false)) [0] 1 0 [0] (by decide)⟩

theorem pollSteps_urls (via : FinalStateVia) (url : String)
    (polls : List PollResponse) :
    ∀ v ∈ (pollSteps via url polls).2, v = url := by
  induction polls with
  | nil => simp [pollSteps]
  | cons r rest ih =>
      intro v hv
      cases via with
      | azureAsyncOperation =>
          rcases eq_or_ne (isTerminal r.opStatus) true with hr | hr
          · simp [pollSteps, hr] at hv
            exact hv
          · simp [pollSteps, hr] at hv
            rcases hv with h1 | h2
            · exact h1
            · exact ih v h2
      | location =>
          rcases eq_or_ne r.code 202 with hr | hr
          · simp [pollSteps, hr] at hv
            rcases hv with h1 | h2
            · exact h1
            · exact ih v h2
          · simp [pollSteps, hr] at hv
            exact hv

theorem pollSteps_asyncOp_terminal_iff (url : String) (polls : List PollResponse) :
    (∃ s, (pollSteps FinalStateVia.azureAsyncOperation url polls).1 = some s ∧
        isTerminal s = true)
      ↔ ∃ r ∈ polls, isTerminal r.opStatus = true := by
  induction polls with
  | nil => simp [pollSteps]
  | cons r rest ih =>
      by_cases hr : isTerminal r.opStatus
      · simp [pollSteps, hr]
      · simp [pollSteps, hr, ih]

theorem pollSteps_location_succeeded_iff (url : String)
    (polls : List PollResponse) :
    (pollSteps FinalStateVia.location url polls).1 = some OpStatus.Succeeded
      ↔ ∃ c, firstNon202 polls = some c ∧ (c = 200 ∨ c = 204) := by
  induction polls with
  | nil => simp [pollSteps, firstNon202]
  | cons r rest ih =>
      by_cases hr : r.code = 202
      · simp [pollSteps, firstNon202, hr, ih]
      · by_cases hok : r.code = 200 ∨ r.code = 204
        · simp [pollSteps, firstNon202, hr, hok]
        · simp [pollSteps, firstNon202, hr, hok]

/-- C7: a poller with final-state-via azure-async-operation over a 201 with an
Azure-AsyncOperation header polls only that header's URL and reaches a terminal
state exactly when some polled payload reports a terminal operation status; a
poller with final-state-via location over a 202 with a Location header polls
only that URL and reaches Succeeded exactly when the GET that ends the polling
returns 200 or 204. -/
theorem lro_final_state_strategies (u : String) (loc ao : Option String)
    (polls : List PollResponse) :
    (∃ res urls,
        lroRun FinalStateVia.azureAsyncOperation ⟨201, some u, loc⟩ polls
          = some (res, urls) ∧
        (∀ v ∈ urls, v = u) ∧
        ((∃ s, res = some s ∧ isTerminal s = true)
          ↔ ∃ r ∈ polls, isTerminal r.opStatus = true)) ∧
    (∃ res urls,
        lroRun FinalStateVia.location ⟨202, ao, some u⟩ polls
          = some (res, urls) ∧
        (∀ v ∈ urls, v = u) ∧
        (res = some OpStatus.Succeeded
          ↔ ∃ c, firstNon202 polls = some c ∧ (c = 200 ∨ c = 204))) := by
  constructor
  · refine ⟨(pollSteps FinalStateVia.azureAsyncOperation u polls).1,
      (pollSteps FinalStateVia.azureAsyncOperation u polls).2, ?_,
      pollSteps_urls _ u polls, pollSteps_asyncOp_terminal_iff u polls⟩
    simp [lroRun, trackingUrl]
  · refine ⟨(pollSteps FinalStateVia.location u polls).1,
      (pollSteps FinalStateVia.location u polls).2, ?_,
      pollSteps_urls _ u polls, pollSteps_location_succeeded_iff u polls⟩
    simp [lroRun, trackingUrl]

/-- C7 witness: both strategies evaluated over the concrete poll sequence that
answers 202/InProgress and then 200/Succeeded. -/
theorem lro_final_state_strategies_witness :
    (∃ res urls,
        lroRun FinalStateVia.azureAsyncOperation
            ⟨201, some "https://poll.example/op", none⟩
            [⟨202, OpStatus.InProgress⟩, ⟨200, OpStatus.Succeeded⟩]
          = some (res, urls) ∧
        (∀ v ∈ urls, v = "https://poll.example/op") ∧
        ((∃ s, res = some s ∧ isTerminal s = true)
          ↔ ∃ r ∈ [PollResponse.mk 202 OpStatus.InProgress,
              PollResponse.mk 200 OpStatus.Succeeded],
              isTerminal r.opStatus = true)) ∧
    (∃ res urls,
        lroRun FinalStateVia.location ⟨202, none, some "https://poll.example/op"⟩
            [⟨202, OpStatus.InProgress⟩, ⟨200, OpStatus.Succeeded⟩]
          = some (res, urls) ∧
        (∀ v ∈ urls, v = "https://poll.example/op") ∧
        (res = some OpStatus.Succeeded
          ↔ ∃ c, firstNon202 [PollResponse.mk 202 OpStatus.InProgress,
              PollResponse.mk 200 OpStatus.Succeeded] = some c ∧
              (c = 200 ∨ c = 204))) :=
  lro_final_state_strategies "https://poll.example/op" none none
    [⟨202, OpStatus.InProgress⟩, ⟨200, OpStatus.Succeeded⟩]

theorem pollSteps_asyncOp_drop (u : String) (polls : List PollResponse) (j : Nat)
    (h : ∀ r ∈ polls.take j, isTerminal r.opStatus = false) :
    (pollSteps FinalStateVia.azureAsyncOperation u (polls.drop j)).1
      = (pollSteps FinalStateVia.azureAsyncOperation u polls).1 := by
  induction j generalizing polls with
  | zero => simp
  | succ n ih =>
      cases polls with
      | nil => simp
      | cons r rest =>
          have hr : isTerminal r.opStatus = false := h r (by simp)
          have hrest : ∀ x ∈ rest.take n, isTerminal x.opStatus = false := by
            intro x hx
            exact h x (by simp [hx])
          simp [pollSteps, hr, ih rest hrest]

theorem pollSteps_location_drop (u : String) (polls : List PollResponse) (j : Nat)
    (h : ∀ r ∈ polls.take j, r.code = 202) :
    (pollSteps FinalStateVia.location u (polls.drop j)).1
      = (pollSteps FinalStateVia.location u polls).1 := by
  induction j generalizing polls with
  | zero => simp
  | succ n ih =>
      cases polls with
      | nil => simp
      | cons r rest =>
          have hr : r.code = 202 := h r (by simp)
          have hrest : ∀ x ∈ rest.take n, x.code = 202 := by
            intro x hx
            exact h x (by simp [hx])
          simp [pollSteps, hr, ih rest hrest]

/-- C8: when a continuation_token keyword is supplied, the begin_* operations
issue no initiating HTTP request and build the poller from the token; without
it they issue exactly one initiating request. A poller resumed after any number
of inconclusive polls (non-terminal payloads under azure-async-operation, 202
codes under location) reaches the same terminal result as the original
uninterrupted poller. -/
theorem continuation_token_flow :
    (∀ tok, begin_lro_flow (some tok) = (0, PollerSource.fromContinuationToken tok)) ∧
    begin_lro_flow none = (1, PollerSource.fromInitialResponse) ∧
    (∀ (u : String) (polls : List PollResponse) (j : Nat),
      (∀ r ∈ polls.take j, isTerminal r.opStatus = false) →
      (pollSteps FinalStateVia.azureAsyncOperation u (polls.drop j)).1
        = (pollSteps FinalStateVia.azureAsyncOperation u polls).1) ∧
    (∀ (u : String) (polls : List PollResponse) (j : Nat),
      (∀ r ∈ polls.take j, r.code = 202) →
      (pollSteps FinalStateVia.location u (polls.drop j)).1
        = (pollSteps FinalStateVia.location u polls).1) :=
  ⟨fun _ => rfl, rfl, pollSteps_asyncOp_drop, pollSteps_location_drop⟩

/-- C8 witness: a token handed to the flow skips the initiating request, and a
poller resumed after one inconclusive poll finishes like the uninterrupted
one. -/
theorem continuation_token_flow_witness :
    begin_lro_flow (some "token0") = (0, PollerSource.fromContinuationToken "token0") ∧
    (pollSteps FinalStateVia.azureAsyncOperation "u"
        (List.drop 1 [⟨202, OpStatus.InProgress⟩, ⟨200, OpStatus.Succeeded⟩])).1
      = (pollSteps FinalStateVia.azureAsyncOperation "u"
        [⟨202, OpStatus.InProgress⟩, ⟨200, OpStatus.Succeeded⟩]).1 :=
  ⟨continuation_token_flow.1 "token0",
    continuation_token_flow.2.2.1 "u"
      [⟨202, OpStatus.InProgress⟩, ⟨200, OpStatus.Succeeded⟩] 1 (by decide)⟩

theorem initial_call_error_not_success (successCodes : List Nat)
    (parse : String → Option String) (resp : HttpResponseData)
    (h : resp.status ∉ successCodes) :
    initial_call_error successCodes parse resp
      = some (spec_error_for parse resp) := by
  unfold initial_call_error map_error default_error_map failsafe_deserialize
    spec_error_for
  rw [if_neg h]
  rcases eq_or_ne resp.status 401 with h1 | h1
  · simp [h1, List.lookup]
  rcases eq_or_ne resp.status 404 with h2 | h2
  · simp [h1, h2, List.lookup]
  rcases eq_or_ne resp.status 409 with h3 | h3
  · simp [h1, h2, h3, List.lookup]
  rcases eq_or_ne resp.status 304 with h4 | h4
  · simp [h1, h2, h3, h4, List.lookup]
  have b1 : (resp.status == 401) = false := beq_eq_false_iff_ne.mpr h1
  have b2 : (resp.status == 404) = false := beq_eq_false_iff_ne.mpr h2
  have b3 : (resp.status == 409) = false := beq_eq_false_iff_ne.mpr h3
  have b4 : (resp.status == 304) = false := beq_eq_false_iff_ne.mpr h4
  simp [b1, b2, b3, b4, h1, h2, h3, h4, List.lookup]

/-- C9: whenever an initial call's response status is outside its success set
(201 for _create_initial; 200, 202, 204 for _delete_initial), the raised error
is ClientAuthenticationError for 401, ResourceNotFoundError for 404,
ResourceExistsError for 409, ResourceNotModifiedError for 304, and otherwise
the generic HttpResponseError carrying the best-effort-deserialized error body;
a malformed body degrades to the generic error carrying no model and the raw
response. -/
theorem initial_call_error_mapping (parse : String → Option String)
    (resp : HttpResponseData) :
    (resp.status ≠ 201 →
      create_initial_error parse resp = some (spec_error_for parse resp)) ∧
    (resp.status ∉ ([200, 202, 204] : List Nat) →
      delete_initial_error parse resp = some (spec_error_for parse resp)) ∧
    (parse resp.body = none → resp.status ∉ ([401, 404, 409, 304] : List Nat) →
      spec_error_for parse resp = RaisedError.httpResponse none resp) := by
  refine ⟨?_, ?_, ?_⟩
  · intro h
    exact initial_call_error_not_success [201] parse resp (by simpa using h)
  · intro h
    exact initial_call_error_not_success [200, 202, 204] parse resp h
  · intro hp hs
    simp only [List.mem_cons, List.mem_singleton, not_or] at hs
    obtain ⟨h1, h2, h3, h4, -⟩ := hs
    simp [spec_error_for, h1, h2, h3, h4, hp]

/-- C9 witness: a 500 response with a malformed body raises the generic error
with no model and the raw response kept, for both initial calls. -/
theorem initial_call_error_mapping_witness :
    create_initial_error (fun _ => none) ⟨500, "garbage"⟩
      = some (RaisedError.httpResponse none ⟨500, "garbage"⟩) ∧
    delete_initial_error (fun _ => none) ⟨500, "garbage"⟩
      = some (RaisedError.httpResponse none ⟨500, "garbage"⟩) := by
  have h := initial_call_error_mapping (fun _ => none) ⟨500, "garbage"⟩
  have hs := h.2.2 rfl (by decide)
  exact ⟨by rw [h.1 (by decide), hs], by rw [h.2.1 (by decide), hs]⟩

theorem lookup_filter_self (key : String) (params : List (String × String)) :
    (params.filter (fun kv => kv.1 != key)).lookup key = none := by
  induction params with
  | nil => simp
  | cons kv rest ih =>
      rcases eq_or_ne kv.1 key with h | h
      · simpa [List.filter, h] using ih
      · have hb : (kv.1 != key) = true := by simpa using h
        have hk : (key == kv.1) = false := by
          simpa using Ne.symm h
        simp [List.filter, hb, List.lookup, hk, ih]

/-- C10: the API version placed on an outgoing request is the explicit
api_version keyword when supplied, otherwise the "api-version" entry of the
caller's query-parameter map, otherwise the client configuration's default;
and the entry is removed from the map. -/
theorem api_version_precedence (kwarg : Option String)
    (params : List (String × String)) (config : String) :
    (∀ v, kwarg = some v → (resolve_api_version kwarg params config).1 = v) ∧
    (kwarg = none → ∀ v, params.lookup "api-version" = some v →
      (resolve_api_version kwarg params config).1 = v) ∧
    (kwarg = none → params.lookup "api-version" = none →
      (resolve_api_version kwarg params config).1 = config) ∧
    (resolve_api_version kwarg params config).2.lookup "api-version" = none := by
  refine ⟨?_, ?_, ?_, ?_⟩
  · intro v hv
    simp [resolve_api_version, hv]
  · intro hk v hv
    simp [resolve_api_version, hk, hv]
  · intro hk hv
    simp [resolve_api_version, hk, hv]
  · simpa [resolve_api_version] using lookup_filter_self "api-version" params

/-- C10 witness: with no keyword and a map holding api-version 2022-10-01, the
resolved version is the map's entry and the entry leaves the map; the keyword
wins when supplied. -/
theorem api_version_precedence_witness :
    ((resolve_api_version none [("api-version", "2022-10-01"), ("k", "v")]
        "2023-07-01").1 = "2022-10-01" ∧
      (resolve_api_version none [("api-version", "2022-10-01"), ("k", "v")]
        "2023-07-01").2.lookup "api-version" = none) ∧
    (resolve_api_version (some "2024-01-01")
      [("api-version", "2022-10-01"), ("k", "v")] "2023-07-01").1
      = "2024-01-01" :=
  ⟨⟨(api_version_precedence none [("api-version", "2022-10-01"), ("k", "v")]
        "2023-07-01").2.1 rfl "2022-10-01" (by decide),
    (api_version_precedence none [("api-version", "2022-10-01"), ("k", "v")]
        "2023-07-01").2.2.2⟩,
    (api_version_precedence (some "2024-01-01")
        [("api-version", "2022-10-01"), ("k", "v")] "2023-07-01").1
      "2024-01-01" rfl⟩

end AzurePipeline
